import Mathlib

/-
Verification development for the MERGE statement builder/compiler of
django-pgbulk (src/pgbulk/_merge.py).

The Python module is embedded shallowly: every dataclass becomes a
structure, the duck-typed clause classes (_Update/_Insert/_Delete/_DoNothing)
become one sum type with a rendering function, and the chained builder calls
become pure functions (the source performs pure functional update via
dataclasses.replace, never aliased mutation, so state threading is not
needed).  The helpers the module imports from pgbulk.core (_quote,
_model_fields, _get_values_for_rows) are not part of the sources under
verification and are modelled from the specification text, as marked on
their doc comments.
-/

namespace Pgbulk

/-- A column of the target relation: its name and whether it is the
identity/auto column (Django AutoField). -/
structure Field where
  column : String
  isAuto : Bool
deriving Repr, DecidableEq

/-- The target model: its database table name and its ordered field list. -/
structure Model where
  db_table : String
  fields : List Field
deriving Repr, DecidableEq

/-- The queryset handed to the builder (`using.into`): the target model plus
the database alias it executes against. -/
structure QuerySetM where
  model : Model
  db : String
deriving Repr, DecidableEq

/-- A source row: a lookup from column name to (serialized) value. -/
abbrev Row := List (String × String)

/-- Modelled from the spec: the relation metadata provider
(pgbulk.core._model_fields is not under src/).  It returns the target's
ordered field list, each field carrying its identity/auto flag. -/
def _model_fields (m : Model) : List Field := m.fields

/-- Modelled from the spec: the identifier quoter (pgbulk.core._quote is not
under src/).  It double-quotes the identifier, doubling any embedded quote
character. -/
def _quote (s : String) : String :=
  "\"" ++ String.mk (s.data.flatMap (fun c => if c = '"' then ['"', '"'] else [c])) ++ "\""

/-- _all_fields: columns of all non-AutoField fields of the model. -/
def _all_fields (m : Model) : List String :=
  ((_model_fields m).filter (fun f => !f.isAuto)).map (fun f => f.column)

/-- Python str.join: the separator placed between consecutive elements. -/
def joinSep (sep : String) : List String → String
  | [] => ""
  | [x] => x
  | x :: y :: t => x ++ sep ++ joinSep sep (y :: t)

/-- Modelled from the spec: the value serializer
(pgbulk.core._get_values_for_rows is not under src/).  For M rows and N
columns it yields M placeholder groups "(%s, ..., %s)" and the M*N
parameters flattened in row-major order; a row missing a referenced column
is a compile-time error (none). -/
def _get_values_for_rows (_qs : QuerySetM) (values : List Row) (all_fields : List Field) :
    Option (List String × List String) :=
  match values.mapM (fun r => all_fields.mapM (fun f => r.lookup f.column)) with
  | none => none
  | some perRow =>
      some (values.map (fun _ => "(" ++ joinSep ", " (all_fields.map (fun _ => "%s")) ++ ")"),
            perRow.flatten)

/-- The clause variants _Update/_Insert/_Delete/_DoNothing of the source as
one sum type (the source models them as duck-typed classes). -/
inductive Then
  | update (fields : List String)
  | insert (columns : List String) (values : List String)
  | delete
  | doNothing
deriving Repr, DecidableEq

/-- The item rendering of _Update.evaluate's loop: each item is preceded by
a space and followed by a comma except the last. -/
def sepItems : List String → String
  | [] => ""
  | [x] => " " ++ x
  | x :: y :: t => " " ++ x ++ "," ++ sepItems (y :: t)

/-- evaluate() of each clause variant, following the source renderers. -/
def Then.evaluate : Then → String
  | Then.update fields => "UPDATE SET" ++ sepItems (fields.map (fun f => f ++ " = source." ++ f))
  | Then.insert columns values =>
      let sql := "INSERT"
      let sql := if columns.isEmpty then sql ++ " VALUES"
                 else sql ++ " (" ++ joinSep ", " columns ++ ") VALUES"
      if values.isEmpty then sql else sql ++ " (" ++ joinSep ", " values ++ ")"
  | Then.delete => "DELETE"
  | Then.doNothing => "DO NOTHING"

/-- The WHEN condition literal. -/
inductive Cond
  | matched
  | notMatched
deriving Repr, DecidableEq

/-- Rendering of the condition literal. -/
def Cond.render : Cond → String
  | Cond.matched => "MATCHED"
  | Cond.notMatched => "NOT MATCHED"

/-- The BY SOURCE / BY TARGET disambiguator (field `by` in the source). -/
inductive By
  | source
  | target
deriving Repr, DecidableEq

/-- _When: a WHEN clause pairing condition, BY side and action. -/
structure _When where
  condition : Cond
  bySide : By
  then_ : Then
deriving Repr, DecidableEq

/-- _When.evaluate: `WHEN <cond> [BY SOURCE] THEN <action>`; target is
implicit and never printed. -/
def _When.evaluate (w : _When) : String :=
  let sql := "WHEN " ++ w.condition.render
  let sql := if w.bySide = By.source then sql ++ " BY SOURCE" else sql
  sql ++ " THEN " ++ w.then_.evaluate

/-- _CompiledMerge: sql text plus ordered parameter list. -/
structure _CompiledMerge where
  sql : String
  sql_args : List String
deriving Repr, DecidableEq

/-- _MergeUsing: the USING stage (target queryset and row source). -/
structure _MergeUsing where
  into : QuerySetM
  values : List Row
deriving Repr, DecidableEq

/-- _MergeOn: the ON stage (builder snapshot accumulating WHEN entries). -/
structure _MergeOn where
  using_ : _MergeUsing
  fields : List String
  distinct_from : Bool
  whens : List _When
deriving Repr, DecidableEq

/-- _WhenMatched: the scoped sub-builder returned by when_matched(). -/
structure _WhenMatched where
  merge_on : _MergeOn
deriving Repr, DecidableEq

/-- _WhenNotMatched: the scoped sub-builder returned by when_not_matched(by=...). -/
structure _WhenNotMatched where
  merge_on : _MergeOn
  bySide : By
deriving Repr, DecidableEq

/-- returning's `fields: list[str] | bool` argument (False / True / a list). -/
inductive RetSpec
  | off
  | all
  | explicit (fields : List String)
deriving Repr, DecidableEq

/-- _MergeReturning: the RETURNING stage. -/
structure _MergeReturning where
  merge_on : _MergeOn
  fields : RetSpec
deriving Repr, DecidableEq

/-- Python truthiness of `fields or default`: None and the empty list both
fall back to the default. -/
def pyOrFields (fields : Option (List String)) (dflt : List String) : List String :=
  match fields with
  | none => dflt
  | some [] => dflt
  | some (f :: fs) => f :: fs

/-- _WhenMatched.update: append one WHEN MATCHED THEN UPDATE entry
(fields defaulting to all non-identity columns). -/
def _WhenMatched.update (w : _WhenMatched) (fields : Option (List String)) : _MergeOn :=
  let fields := pyOrFields fields (_all_fields w.merge_on.using_.into.model)
  { w.merge_on with
      whens := w.merge_on.whens ++ [⟨Cond.matched, By.target, Then.update fields⟩] }

/-- _WhenMatched.delete: append one WHEN MATCHED THEN DELETE entry. -/
def _WhenMatched.delete (w : _WhenMatched) : _MergeOn :=
  { w.merge_on with
      whens := w.merge_on.whens ++ [⟨Cond.matched, By.target, Then.delete⟩] }

/-- _WhenMatched.do_nothing: append one WHEN MATCHED THEN DO NOTHING entry. -/
def _WhenMatched.do_nothing (w : _WhenMatched) : _MergeOn :=
  { w.merge_on with
      whens := w.merge_on.whens ++ [⟨Cond.matched, By.target, Then.doNothing⟩] }

/-- _WhenNotMatched.insert: append one WHEN NOT MATCHED THEN INSERT entry
over all non-identity columns, valued from the matching source column. -/
def _WhenNotMatched.insert (w : _WhenNotMatched) : _MergeOn :=
  let columns := _all_fields w.merge_on.using_.into.model
  let values := columns.map (fun f => "source." ++ f)
  { w.merge_on with
      whens := w.merge_on.whens ++ [⟨Cond.notMatched, w.bySide, Then.insert columns values⟩] }

/-- _WhenNotMatched.do_nothing: append one WHEN NOT MATCHED THEN DO NOTHING entry. -/
def _WhenNotMatched.do_nothing (w : _WhenNotMatched) : _MergeOn :=
  { w.merge_on with
      whens := w.merge_on.whens ++ [⟨Cond.notMatched, w.bySide, Then.doNothing⟩] }

/-- _MergeOn.when_matched: the scoped WHEN MATCHED sub-builder. -/
def _MergeOn.when_matched (mo : _MergeOn) : _WhenMatched := ⟨mo⟩

/-- _MergeOn.when_not_matched: the scoped WHEN NOT MATCHED sub-builder. -/
def _MergeOn.when_not_matched (mo : _MergeOn) (bySide : By) : _WhenNotMatched := ⟨mo, bySide⟩

/-- _MergeOn.returning: the RETURNING stage carrying the requested fields. -/
def _MergeOn.returning (mo : _MergeOn) (fields : RetSpec) : _MergeReturning := ⟨mo, fields⟩

/-- _MergeUsing.on: seed the ON stage with fields, the distinct_from flag
and an empty WHEN list. -/
def _MergeUsing.on (u : _MergeUsing) (fields : List String) (distinct_from : Bool) : _MergeOn :=
  ⟨u, fields, distinct_from, []⟩

/-- build(into, values): the USING stage. -/
def build (into : QuerySetM) (values : List Row) : _MergeUsing := ⟨into, values⟩

/-- The field-comparison part of _compile_on's loop: each comparison is
preceded by a space, with " AND" between consecutive comparisons. -/
def onFieldsSql (sign : String) : List String → String
  | [] => ""
  | [f] => " source." ++ f ++ " " ++ sign ++ " target." ++ f
  | f :: g :: t =>
      " source." ++ f ++ " " ++ sign ++ " target." ++ f ++ " AND" ++ onFieldsSql sign (g :: t)

/-- _compile_on: `ON <comparisons> <WHEN clauses in declaration order>`. -/
def _compile_on (mo : _MergeOn) : String :=
  let sign := if !mo.distinct_from then "=" else "IS NOT DISTINCT FROM"
  let sql := "ON" ++ onFieldsSql sign mo.fields
  mo.whens.foldl (fun s w => s ++ " " ++ w.evaluate) sql

/-- Outcome of _compile_merge: the "no statement" sentinel (Python None),
the MissingColumnError raised by the value serializer, or a compiled
statement. -/
inductive CompileResult
  | noStatement
  | errMissingColumn
  | ok (c : _CompiledMerge)
deriving Repr, DecidableEq

/-- The list the RETURNING branch iterates over: the requested list, or all
non-identity columns if the argument was True. -/
def returningFields (returning : RetSpec) (m : Model) : List String :=
  match returning with
  | RetSpec.all => _all_fields m
  | RetSpec.explicit fs => fs
  | RetSpec.off => []

/-- The RETURNING suffix appended by _compile_merge (factored out of the
compile function: the source appends exactly this text to sql in place).
Note the source's guard is `len(returning) > 1`, so a single requested
column appends nothing beyond merge_action(). -/
def returningSql (returning : RetSpec) (m : Model) : String :=
  match returning with
  | RetSpec.off => ""
  | _ =>
      let ret := returningFields returning m
      let sql := " RETURNING merge_action()"
      if ret.length > 1 then
        sql ++ "," ++ " " ++ joinSep ", " (ret.map (fun f => "target." ++ f))
      else sql

/-- _compile_merge: the merge compiler.  Empty row source yields the
"no statement" sentinel; otherwise the MERGE INTO ... USING (VALUES ...)
AS source (...) statement, the ON/WHEN clauses, and the optional
RETURNING suffix. -/
def _compile_merge (mo : _MergeOn) (returning : RetSpec) : CompileResult :=
  let u := mo.using_
  let all_fields := _model_fields u.into.model
  if u.values.isEmpty then CompileResult.noStatement else
  match _get_values_for_rows u.into u.values all_fields with
  | none => CompileResult.errMissingColumn
  | some (row_values, sql_args) =>
      let row_values_sql := joinSep ", " row_values
      let all_field_names_sql := joinSep ", " (all_fields.map (fun f => _quote f.column))
      let sql := "MERGE INTO " ++ _quote u.into.model.db_table ++ " target USING (VALUES "
                   ++ row_values_sql ++ ") AS source (" ++ all_field_names_sql ++ ")"
      let sql := sql ++ " " ++ _compile_on mo
      let sql := sql ++ returningSql returning u.into.model
      CompileResult.ok ⟨sql, sql_args⟩

/-- A result row: the merge_action column plus the remaining returned
columns. -/
structure RRow where
  merge_action : String
  rest : List (String × String)
deriving Repr, DecidableEq

/-- _MergeResult: the ordered result set of a merge. -/
structure _MergeResult where
  rows : List RRow
deriving Repr, DecidableEq

/-- created: rows whose merge_action is INSERT. -/
def _MergeResult.created (r : _MergeResult) : List RRow :=
  r.rows.filter (fun i => i.merge_action == "INSERT")

/-- updated: rows whose merge_action is UPDATE. -/
def _MergeResult.updated (r : _MergeResult) : List RRow :=
  r.rows.filter (fun i => i.merge_action == "UPDATE")

/-- deleted: rows whose merge_action is DELETE. -/
def _MergeResult.deleted (r : _MergeResult) : List RRow :=
  r.rows.filter (fun i => i.merge_action == "DELETE")

/-- The observable outcome of an execute(): the statements sent to the
database (sql with bound parameters) and the materialized result set. -/
structure ExecOutcome where
  executed : List (String × List String)
  result : _MergeResult
deriving Repr, DecidableEq

/-- _MergeReturning.execute, parametrized by the database round trip runQ.
A None compile returns _MergeResult([]) without touching the connection;
a serializer error propagates (none); otherwise exactly one statement is
executed and its rows materialized. -/
def _MergeReturning.execute (runQ : String → List String → List RRow) (r : _MergeReturning) :
    Option ExecOutcome :=
  match _compile_merge r.merge_on r.fields with
  | CompileResult.noStatement => some ⟨[], ⟨[]⟩⟩
  | CompileResult.errMissingColumn => none
  | CompileResult.ok c => some ⟨[(c.sql, c.sql_args)], ⟨runQ c.sql c.sql_args⟩⟩

/-- _MergeOn.execute: compiles without RETURNING and returns nothing beyond
the list of statements sent to the database (empty when compile yields the
no-statement sentinel). -/
def _MergeOn.execute (mo : _MergeOn) : Option (List (String × List String)) :=
  match _compile_merge mo RetSpec.off with
  | CompileResult.noStatement => some []
  | CompileResult.errMissingColumn => none
  | CompileResult.ok c => some [(c.sql, c.sql_args)]

/-- The ON-stage snapshots reachable through the builder's typed entry
points: seeded by _MergeUsing.on and extended only by the five terminal
methods of the two scoped sub-builders. -/
inductive Reachable : _MergeOn → Prop
  | init (u : _MergeUsing) (fields : List String) (df : Bool) :
      Reachable (u.on fields df)
  | matchedUpdate {mo : _MergeOn} (fields : Option (List String)) :
      Reachable mo → Reachable (mo.when_matched.update fields)
  | matchedDelete {mo : _MergeOn} :
      Reachable mo → Reachable mo.when_matched.delete
  | matchedDoNothing {mo : _MergeOn} :
      Reachable mo → Reachable mo.when_matched.do_nothing
  | notMatchedInsert {mo : _MergeOn} (b : By) :
      Reachable mo → Reachable (mo.when_not_matched b).insert
  | notMatchedDoNothing {mo : _MergeOn} (b : By) :
      Reachable mo → Reachable (mo.when_not_matched b).do_nothing

/-- Modelled from the spec: the ON comparison rendering with every
interpolated identifier passed through the identifier quoter, as the spec's
quoting requirement demands of all identifiers in the SQL text.  Used only
to compare the source's rendering against the requirement. -/
def onFieldsSqlQuoted (sign : String) : List String → String
  | [] => ""
  | [f] => " source." ++ _quote f ++ " " ++ sign ++ " target." ++ _quote f
  | f :: g :: t =>
      " source." ++ _quote f ++ " " ++ sign ++ " target." ++ _quote f ++ " AND" ++
        onFieldsSqlQuoted sign (g :: t)

/-- Concatenation of a list of strings. -/
def concatAll : List String → String
  | [] => ""
  | x :: t => x ++ concatAll t

/- Concrete fixtures used by witnesses and counterexamples. -/

/-- Example target: table "t" with non-identity columns name and amount. -/
def exModel : Model := ⟨"t", [⟨"name", false⟩, ⟨"amount", false⟩]⟩

/-- Example queryset over exModel. -/
def exQS : QuerySetM := ⟨exModel, "default"⟩

/-- Example source row. -/
def exRow : Row := [("name", "Alice"), ("amount", "1")]

/-- Example USING stage with one source row. -/
def exUsing : _MergeUsing := build exQS [exRow]

/-- Example ON stage matching on name. -/
def exOnBase : _MergeOn := exUsing.on ["name"] true

/-- Example statement with one WHEN NOT MATCHED THEN INSERT entry. -/
def exOnInsert : _MergeOn := (exOnBase.when_not_matched By.target).insert

/-- Example USING stage with an empty row source. -/
def exUsingEmpty : _MergeUsing := build exQS []

/-- Example ON stage over the empty row source. -/
def exOnEmpty : _MergeOn := exUsingEmpty.on ["name"] true

/-- Example result set with a single INSERT row. -/
def exRes : _MergeResult := ⟨[⟨"INSERT", [("name", "Alice")]⟩]⟩

/-- Target with quote characters embedded in both column names. -/
def cModel2 : Model := ⟨"t2", [⟨"a\"b", false⟩, ⟨"c\"d", false⟩]⟩

/-- Queryset over cModel2. -/
def cQS2 : QuerySetM := ⟨cModel2, "default"⟩

/-- Source row for cModel2. -/
def cRow2 : Row := [("a\"b", "v1"), ("c\"d", "v2")]

/-- ON stage whose single ON field contains a quote character. -/
def cOnBase2 : _MergeOn := (build cQS2 [cRow2]).on ["a\"b"] true

/-- Statement over cModel2 with one UPDATE and one INSERT WHEN entry. -/
def cOnFull : _MergeOn :=
  ((cOnBase2.when_matched.update none).when_not_matched By.target).insert

/-- The SQL the code compiles from cOnFull with returning(True): the table
name and the AS source column list are quoted, every other identifier is
interpolated raw. -/
def cexSql : String :=
  "MERGE INTO \"t2\" target USING (VALUES (%s, %s)) AS source (\"a\"\"b\", \"c\"\"d\") ON source.a\"b IS NOT DISTINCT FROM target.a\"b WHEN MATCHED THEN UPDATE SET a\"b = source.a\"b, c\"d = source.c\"d WHEN NOT MATCHED THEN INSERT (a\"b, c\"d) VALUES (source.a\"b, source.c\"d) RETURNING merge_action(), target.a\"b, target.c\"d"

/-- Reachable snapshot holding a DO NOTHING action under NOT MATCHED. -/
def cNotMatchedDoNothing : _MergeOn := (exOnBase.when_not_matched By.target).do_nothing


/-- The SQL compiled from exOnInsert with returning(["name", "amount"]). -/
def c2SqlRet : String :=
  "MERGE INTO \"t\" target USING (VALUES (%s, %s)) AS source (\"name\", \"amount\") ON source.name IS NOT DISTINCT FROM target.name WHEN NOT MATCHED THEN INSERT (name, amount) VALUES (source.name, source.amount) RETURNING merge_action(), target.name, target.amount"

/- Helper lemmas (shared; not registered for any claim). -/

/-- Splitting a string-literal head: if a = b ++ c then a ++ x = b ++ (c ++ x). -/
theorem str_split (a b c : String) (h : a = b ++ c) (x : String) : a ++ x = b ++ (c ++ x) := by
  subst h; exact String.append_assoc b c x

/-- Merging adjacent string literals: if a ++ b = c then a ++ (b ++ x) = c ++ x. -/
theorem str_merge (a b c : String) (h : a ++ b = c) (x : String) : a ++ (b ++ x) = c ++ x := by
  rw [← String.append_assoc, h]

/-- The WHEN-clause loop of _compile_on appends the rendered clauses, each
preceded by a space, in list order. -/
theorem foldl_eval_append (ws : List _When) : ∀ init : String,
    ws.foldl (fun s w => s ++ " " ++ w.evaluate) init =
      init ++ concatAll (ws.map (fun w => " " ++ w.evaluate)) := by
  induction ws with
  | nil => intro init; simp [concatAll, String.append_empty]
  | cons w t ih =>
      intro init
      simp only [List.foldl_cons, List.map_cons, concatAll]
      rw [ih]
      simp [String.append_assoc]

/-- The field-comparison loop of _compile_on is a space followed by the
individual comparisons joined by " AND". -/
theorem onFieldsSql_join (sign : String) : ∀ (f : String) (fs : List String),
    onFieldsSql sign (f :: fs) =
      " " ++ joinSep " AND "
        ((f :: fs).map (fun g => "source." ++ g ++ " " ++ sign ++ " target." ++ g)) := by
  intro f fs
  induction fs generalizing f with
  | nil =>
      simp only [onFieldsSql, List.map_cons, List.map_nil, joinSep, String.append_assoc]
      rw [str_split " source." " " "source." rfl]
  | cons g t ih =>
      simp only [onFieldsSql, List.map_cons, joinSep]
      rw [ih g]
      simp only [String.append_assoc]
      rw [str_merge " AND" " " " AND " rfl, str_split " source." " " "source." rfl,
        List.map_cons]

/-- A nonempty item list renders to a nonempty fragment in _Update's loop. -/
theorem sepItems_cons_length (x : String) (xs : List String) :
    0 < (sepItems (x :: xs)).length := by
  cases xs with
  | nil =>
      simp only [sepItems, String.length_append]
      have h1 : (" ").length = 1 := rfl
      omega
  | cons y t =>
      simp only [sepItems, String.length_append]
      have h1 : (" ").length = 1 := rfl
      omega

/-- A string of length zero is the empty string. -/
theorem string_length_zero {s : String} (h : s.length = 0) : s = "" := by
  cases s with
  | mk data =>
      simp only [String.length] at h
      have hd : data = [] := List.length_eq_zero.mp h
      subst hd
      rfl


/- Claim theorems. -/

set_option maxRecDepth 4000 in
/-- C1: the claim says returning(fields) always compiles a RETURNING clause
listing merge_action() followed by exactly the requested columns.  The code
violates it: its guard is `len(returning) > 1`, so the single requested
column ["name"] is dropped and only merge_action() is returned, while a
two-column request gets both columns.  This theorem evaluates the compiler
at that failing input. -/
theorem C1_returning_single_dropped :
    ∃ base : String,
      _compile_merge exOnInsert RetSpec.off = CompileResult.ok ⟨base, ["Alice", "1"]⟩ ∧
      _compile_merge exOnInsert (RetSpec.explicit ["name"]) =
        CompileResult.ok ⟨base ++ " RETURNING merge_action()", ["Alice", "1"]⟩ ∧
      _compile_merge exOnInsert (RetSpec.explicit ["name", "amount"]) =
        CompileResult.ok
          ⟨base ++ " RETURNING merge_action(), target.name, target.amount",
            ["Alice", "1"]⟩ :=
  ⟨"MERGE INTO \"t\" target USING (VALUES (%s, %s)) AS source (\"name\", \"amount\") ON source.name IS NOT DISTINCT FROM target.name WHEN NOT MATCHED THEN INSERT (name, amount) VALUES (source.name, source.amount)",
    by decide, by decide, by decide⟩

/-- C4: for an empty row source, compilation yields the no-statement
sentinel (not the error outcome), execute() sends no statement to the
database and returns nothing, and returning(...).execute() sends no
statement and returns an empty Result Set. -/
theorem C4_empty_source (mo : _MergeOn) (r : RetSpec)
    (runQ : String → List String → List RRow) (h : mo.using_.values = []) :
    _compile_merge mo r = CompileResult.noStatement ∧
    mo.execute = some [] ∧
    (mo.returning r).execute runQ = some ⟨[], ⟨[]⟩⟩ := by
  have he : mo.using_.values.isEmpty = true := by simp [h]
  refine ⟨?_, ?_, ?_⟩ <;>
    simp [_compile_merge, _MergeOn.execute, _MergeReturning.execute, _MergeOn.returning, he]

/-- C4 witness: the empty-source fixture satisfies the hypothesis. -/
theorem C4_empty_source_witness :
    _compile_merge exOnEmpty RetSpec.all = CompileResult.noStatement ∧
    exOnEmpty.execute = some [] ∧
    (exOnEmpty.returning RetSpec.all).execute (fun _ _ => []) = some ⟨[], ⟨[]⟩⟩ :=
  C4_empty_source exOnEmpty RetSpec.all (fun _ _ => []) rfl

/-- C9: for a non-empty row source, compilation is a deterministic function
of the snapshot: any two results of compiling the same snapshot with the
same returning request are equal (the embedding is pure, as is the source,
which rebuilds the statement from the snapshot alone). -/
theorem C9_compile_deterministic (mo : _MergeOn) (r : RetSpec)
    (_h : mo.using_.values ≠ []) :
    ∀ c₁ c₂, _compile_merge mo r = c₁ → _compile_merge mo r = c₂ → c₁ = c₂ := by
  intro c₁ c₂ h₁ h₂
  rw [← h₁, ← h₂]

/-- C9 witness: determinism applied at a concrete non-empty snapshot. -/
theorem C9_compile_deterministic_witness :
    _compile_merge exOnInsert RetSpec.off = _compile_merge exOnInsert RetSpec.off :=
  C9_compile_deterministic exOnInsert RetSpec.off (by decide)
    (_compile_merge exOnInsert RetSpec.off) (_compile_merge exOnInsert RetSpec.off) rfl rfl

/-- C5: each chained builder call returns a new snapshot; on() seeds all
four fields, every WHEN terminal leaves the target queryset, the ON fields
and the distinct_from flag of the snapshot unchanged, and the scoped
sub-builders and the RETURNING stage embed the original snapshot itself
unchanged (the source copies via dataclasses.replace, so in this pure
embedding the original is untouched and compiles exactly as before). -/
theorem C5_immutable_builder (mo : _MergeOn) (f : Option (List String)) (b : By)
    (rs : RetSpec) (u : _MergeUsing) (fs : List String) (df : Bool) :
    u.on fs df = ⟨u, fs, df, []⟩ ∧
    (mo.when_matched.update f).using_ = mo.using_ ∧
    (mo.when_matched.update f).fields = mo.fields ∧
    (mo.when_matched.update f).distinct_from = mo.distinct_from ∧
    mo.when_matched.delete.using_ = mo.using_ ∧
    mo.when_matched.delete.fields = mo.fields ∧
    mo.when_matched.delete.distinct_from = mo.distinct_from ∧
    mo.when_matched.do_nothing.using_ = mo.using_ ∧
    mo.when_matched.do_nothing.fields = mo.fields ∧
    mo.when_matched.do_nothing.distinct_from = mo.distinct_from ∧
    (mo.when_not_matched b).insert.using_ = mo.using_ ∧
    (mo.when_not_matched b).insert.fields = mo.fields ∧
    (mo.when_not_matched b).insert.distinct_from = mo.distinct_from ∧
    (mo.when_not_matched b).do_nothing.using_ = mo.using_ ∧
    (mo.when_not_matched b).do_nothing.fields = mo.fields ∧
    (mo.when_not_matched b).do_nothing.distinct_from = mo.distinct_from ∧
    mo.when_matched.merge_on = mo ∧
    (mo.when_not_matched b).merge_on = mo ∧
    (mo.returning rs).merge_on = mo :=
  ⟨rfl, rfl, rfl, rfl, rfl, rfl, rfl, rfl, rfl, rfl, rfl, rfl, rfl, rfl, rfl, rfl,
    rfl, rfl, rfl⟩

/-- C8: membership in the created/updated/deleted views is exactly
membership in the result rows with the corresponding merge_action; a row
belongs to at most one view; each view is a sublist of the result rows
(order preserved). -/
theorem C8_result_views (res : _MergeResult) (r : RRow) :
    (r ∈ res.created ↔ r ∈ res.rows ∧ r.merge_action = "INSERT") ∧
    (r ∈ res.updated ↔ r ∈ res.rows ∧ r.merge_action = "UPDATE") ∧
    (r ∈ res.deleted ↔ r ∈ res.rows ∧ r.merge_action = "DELETE") ∧
    ¬(r ∈ res.created ∧ r ∈ res.updated) ∧
    ¬(r ∈ res.created ∧ r ∈ res.deleted) ∧
    ¬(r ∈ res.updated ∧ r ∈ res.deleted) ∧
    List.Sublist res.created res.rows ∧
    List.Sublist res.updated res.rows ∧
    List.Sublist res.deleted res.rows := by
  have hc : r ∈ res.created ↔ r ∈ res.rows ∧ r.merge_action = "INSERT" := by
    simp [_MergeResult.created, List.mem_filter]
  have hu : r ∈ res.updated ↔ r ∈ res.rows ∧ r.merge_action = "UPDATE" := by
    simp [_MergeResult.updated, List.mem_filter]
  have hd : r ∈ res.deleted ↔ r ∈ res.rows ∧ r.merge_action = "DELETE" := by
    simp [_MergeResult.deleted, List.mem_filter]
  refine ⟨hc, hu, hd, ?_, ?_, ?_,
    List.filter_sublist res.rows, List.filter_sublist res.rows, List.filter_sublist res.rows⟩
  · rintro ⟨h1, h2⟩
    have e1 := (hc.mp h1).2
    have e2 := (hu.mp h2).2
    rw [e1] at e2
    exact absurd e2 (by decide)
  · rintro ⟨h1, h2⟩
    have e1 := (hc.mp h1).2
    have e2 := (hd.mp h2).2
    rw [e1] at e2
    exact absurd e2 (by decide)
  · rintro ⟨h1, h2⟩
    have e1 := (hu.mp h1).2
    have e2 := (hd.mp h2).2
    rw [e1] at e2
    exact absurd e2 (by decide)

/-- C8 witness: the single INSERT row of a concrete result set is a member
of the created view, hence of the rows with merge_action INSERT. -/
theorem C8_result_views_witness :
    (⟨"INSERT", [("name", "Alice")]⟩ : RRow) ∈ exRes.rows ∧
      (⟨"INSERT", [("name", "Alice")]⟩ : RRow).merge_action = "INSERT" :=
  (C8_result_views exRes ⟨"INSERT", [("name", "Alice")]⟩).1.mp (by decide)

/-- C3 counterexample: the claim says a DoNothing action appears only under
MATCHED, but when_not_matched(...).do_nothing() is a typed entry point and
reaches a WHEN entry pairing DO NOTHING with NOT MATCHED. -/
theorem C3_counterexample :
    Reachable cNotMatchedDoNothing ∧
    ∃ w, w ∈ cNotMatchedDoNothing.whens ∧ w.then_ = Then.doNothing ∧
      w.condition = Cond.notMatched :=
  ⟨Reachable.notMatchedDoNothing By.target (Reachable.init exUsing ["name"] true),
    ⟨⟨Cond.notMatched, By.target, Then.doNothing⟩, by decide, rfl, rfl⟩⟩

/-- C3 (amended): on every snapshot reachable through the typed entry
points, Update and Delete actions appear only under MATCHED and Insert
actions only under NOT MATCHED (DoNothing is reachable under either
condition). -/
theorem C3_typed_pairing {mo : _MergeOn} (h : Reachable mo) :
    ∀ w ∈ mo.whens,
      ((∃ fs, w.then_ = Then.update fs) → w.condition = Cond.matched) ∧
      (w.then_ = Then.delete → w.condition = Cond.matched) ∧
      ((∃ cs vs, w.then_ = Then.insert cs vs) → w.condition = Cond.notMatched) := by
  induction h with
  | init u fields df =>
      intro w hw
      simp [_MergeUsing.on] at hw
  | matchedUpdate fields _ ih =>
      intro w hw
      simp only [_WhenMatched.update, _MergeOn.when_matched, List.mem_append,
        List.mem_singleton] at hw
      rcases hw with hw | hw
      · exact ih w hw
      · subst hw
        exact ⟨fun _ => rfl, fun _ => rfl, fun hk => by rcases hk with ⟨cs, vs, hk⟩; cases hk⟩
  | matchedDelete _ ih =>
      intro w hw
      simp only [_WhenMatched.delete, _MergeOn.when_matched, List.mem_append,
        List.mem_singleton] at hw
      rcases hw with hw | hw
      · exact ih w hw
      · subst hw
        exact ⟨fun _ => rfl, fun _ => rfl, fun hk => by rcases hk with ⟨cs, vs, hk⟩; cases hk⟩
  | matchedDoNothing _ ih =>
      intro w hw
      simp only [_WhenMatched.do_nothing, _MergeOn.when_matched, List.mem_append,
        List.mem_singleton] at hw
      rcases hw with hw | hw
      · exact ih w hw
      · subst hw
        exact ⟨fun _ => rfl, fun _ => rfl, fun hk => by rcases hk with ⟨cs, vs, hk⟩; cases hk⟩
  | notMatchedInsert b _ ih =>
      intro w hw
      simp only [_WhenNotMatched.insert, _MergeOn.when_not_matched, List.mem_append,
        List.mem_singleton] at hw
      rcases hw with hw | hw
      · exact ih w hw
      · subst hw
        exact ⟨(fun hk => by rcases hk with ⟨fs, hk⟩; cases hk), (fun hk => by cases hk),
          (fun _ => rfl)⟩
  | notMatchedDoNothing b _ ih =>
      intro w hw
      simp only [_WhenNotMatched.do_nothing, _MergeOn.when_not_matched, List.mem_append,
        List.mem_singleton] at hw
      rcases hw with hw | hw
      · exact ih w hw
      · subst hw
        exact ⟨(fun hk => by rcases hk with ⟨fs, hk⟩; cases hk), (fun hk => by cases hk),
          (fun _ => rfl)⟩

/-- C3 witness: the pairing invariant applied to a concrete reachable
snapshot holding one WHEN MATCHED THEN UPDATE entry. -/
theorem C3_typed_pairing_witness :
    (⟨Cond.matched, By.target, Then.update ["name", "amount"]⟩ : _When).condition =
      Cond.matched :=
  (C3_typed_pairing (Reachable.matchedUpdate none (Reachable.init exUsing ["name"] true))
      ⟨Cond.matched, By.target, Then.update ["name", "amount"]⟩ (by decide)).1
    ⟨["name", "amount"], rfl⟩

/-- C6: for a non-empty ON field list the compiled ON clause is the
per-field comparisons source.<f> <op> target.<f> joined by AND in field
order, with op = IS NOT DISTINCT FROM exactly when distinct_from is true
and op = "=" otherwise (followed by the WHEN clauses). -/
theorem C6_on_rendering (u : _MergeUsing) (f : String) (fs : List String) (df : Bool)
    (ws : List _When) :
    _compile_on ⟨u, f :: fs, df, ws⟩ =
      "ON " ++ joinSep " AND "
          ((f :: fs).map (fun g =>
            "source." ++ g ++ " " ++ (if df then "IS NOT DISTINCT FROM" else "=") ++
              " target." ++ g)) ++
        concatAll (ws.map (fun w => " " ++ w.evaluate)) := by
  have hsign : (if !df then "=" else "IS NOT DISTINCT FROM") =
      (if df then "IS NOT DISTINCT FROM" else "=") := by cases df <;> rfl
  simp only [_compile_on]
  rw [foldl_eval_append, hsign, onFieldsSql_join]
  rw [str_merge "ON" " " "ON " rfl]

/-- C7: each WHEN terminal appends exactly one entry at the end of the
snapshot's WHEN list, and the compiled clause text renders the accumulated
WHEN entries in exactly list (declaration) order after the ON comparisons. -/
theorem C7_when_order (mo : _MergeOn) (f : Option (List String)) (b : By) :
    (mo.when_matched.update f).whens =
      mo.whens ++ [⟨Cond.matched, By.target,
        Then.update (pyOrFields f (_all_fields mo.using_.into.model))⟩] ∧
    mo.when_matched.delete.whens = mo.whens ++ [⟨Cond.matched, By.target, Then.delete⟩] ∧
    mo.when_matched.do_nothing.whens =
      mo.whens ++ [⟨Cond.matched, By.target, Then.doNothing⟩] ∧
    (mo.when_not_matched b).insert.whens =
      mo.whens ++ [⟨Cond.notMatched, b,
        Then.insert (_all_fields mo.using_.into.model)
          ((_all_fields mo.using_.into.model).map (fun g => "source." ++ g))⟩] ∧
    (mo.when_not_matched b).do_nothing.whens =
      mo.whens ++ [⟨Cond.notMatched, b, Then.doNothing⟩] ∧
    _compile_on mo =
      ("ON" ++ onFieldsSql (if !mo.distinct_from then "=" else "IS NOT DISTINCT FROM")
          mo.fields) ++
        concatAll (mo.whens.map (fun w => " " ++ w.evaluate)) := by
  refine ⟨rfl, rfl, rfl, rfl, rfl, ?_⟩
  simp only [_compile_on]
  rw [foldl_eval_append]

/-- C10: update with an explicitly empty field list builds the same
snapshot as update with no field list (Python `fields or _all_fields(...)`
treats [] like None); the appended entry covers all non-identity columns;
and under a target with at least one non-identity column no empty UPDATE
SET list is ever rendered, whatever the fields argument. -/
theorem C10_update_empty_fields (mo : _MergeOn) :
    mo.when_matched.update (some []) = mo.when_matched.update none ∧
    (mo.when_matched.update (some [])).whens =
      mo.whens ++ [⟨Cond.matched, By.target,
        Then.update (_all_fields mo.using_.into.model)⟩] ∧
    (_all_fields mo.using_.into.model ≠ [] →
      ∀ fs : Option (List String),
        Then.evaluate (Then.update (pyOrFields fs (_all_fields mo.using_.into.model))) ≠
          "UPDATE SET") := by
  refine ⟨rfl, rfl, fun hne fs => ?_⟩
  obtain ⟨a, t, hat⟩ : ∃ a t, pyOrFields fs (_all_fields mo.using_.into.model) = a :: t := by
    cases fs with
    | none =>
        cases hh : _all_fields mo.using_.into.model with
        | nil => exact absurd hh hne
        | cons a t => exact ⟨a, t, by simp [pyOrFields, hh]⟩
    | some l =>
        cases l with
        | nil =>
            cases hh : _all_fields mo.using_.into.model with
            | nil => exact absurd hh hne
            | cons a t => exact ⟨a, t, by simp [pyOrFields, hh]⟩
        | cons a t => exact ⟨a, t, rfl⟩
  rw [hat]
  intro hEq
  simp only [Then.evaluate, List.map_cons] at hEq
  have hlen := congrArg String.length hEq
  rw [String.length_append] at hlen
  have hpos := sepItems_cons_length (a ++ " = source." ++ a)
    (t.map (fun f => f ++ " = source." ++ f))
  omega

/-- C10 witness: on the example target, update with an explicitly empty
field list still renders a non-empty UPDATE SET list. -/
theorem C10_update_empty_fields_witness :
    Then.evaluate (Then.update (pyOrFields (some []) (_all_fields exModel))) ≠
      "UPDATE SET" :=
  (C10_update_empty_fields exOnBase).2.2 (by decide) (some [])

set_option maxRecDepth 8000 in
/-- C2 counterexample: compiling a concrete statement whose column names
embed a quote character shows the claim false.  The full compiled SQL
exhibits every identifier class at once: the table name and the AS source
column list pass through the quoter, while the ON-clause fields, the
UPDATE SET fields, the INSERT columns and values, and the RETURNING
columns are all interpolated raw, not as the quoter renders them. -/
theorem C2_quoting_counterexample :
    _compile_merge cOnFull RetSpec.all = CompileResult.ok ⟨cexSql, ["v1", "v2"]⟩ ∧
    _quote "a\"b" = "\"a\"\"b\"" ∧
    _quote "c\"d" = "\"c\"\"d\"" ∧
    _compile_on cOnBase2 = "ON source.a\"b IS NOT DISTINCT FROM target.a\"b" ∧
    _compile_on cOnBase2 ≠ "ON" ++ onFieldsSqlQuoted "IS NOT DISTINCT FROM" cOnBase2.fields ∧
    Then.evaluate (Then.update ["a\"b", "c\"d"]) =
      "UPDATE SET a\"b = source.a\"b, c\"d = source.c\"d" ∧
    Then.evaluate (Then.insert ["a\"b", "c\"d"] ["source.a\"b", "source.c\"d"]) =
      "INSERT (a\"b, c\"d) VALUES (source.a\"b, source.c\"d)" ∧
    returningSql RetSpec.all cModel2 =
      " RETURNING merge_action(), target.a\"b, target.c\"d" :=
  ⟨by decide, by decide, by decide, by decide, by decide, by decide, by decide, by decide⟩

/-- C2 (amended): every successfully compiled statement's SQL text is
exactly: MERGE INTO, the quoter-rendered table name, a VALUES list made
only of "%s" placeholder groups (row values are never string-interpolated;
they travel in the bound parameter list, which equals the serializer's
row-major flattened values), the AS source column list with every column
passed through the quoter, then _compile_on's ON/WHEN text and
returningSql's RETURNING suffix, both of which interpolate identifiers raw
(as the counterexample shows); in particular, for a multi-column request
the RETURNING suffix is merge_action() first, then the requested columns
as unquoted target.<f>. -/
theorem C2_amended_quoting (mo : _MergeOn) (r : RetSpec) (sql : String) (args : List String)
    (h : _compile_merge mo r = CompileResult.ok ⟨sql, args⟩) :
    sql =
      "MERGE INTO " ++ _quote mo.using_.into.model.db_table ++ " target USING (VALUES " ++
        joinSep ", " (mo.using_.values.map (fun _ =>
          "(" ++ joinSep ", " ((_model_fields mo.using_.into.model).map (fun _ => "%s")) ++
            ")")) ++
        ") AS source (" ++
        joinSep ", " ((_model_fields mo.using_.into.model).map (fun f => _quote f.column)) ++
        ")" ++ " " ++ _compile_on mo ++ returningSql r mo.using_.into.model ∧
    _get_values_for_rows mo.using_.into mo.using_.values (_model_fields mo.using_.into.model) =
      some (mo.using_.values.map (fun _ =>
        "(" ++ joinSep ", " ((_model_fields mo.using_.into.model).map (fun _ => "%s")) ++ ")"),
        args) ∧
    (∀ fs : List String, 1 < fs.length →
      returningSql (RetSpec.explicit fs) mo.using_.into.model =
        " RETURNING merge_action(), " ++ joinSep ", " (fs.map (fun f => "target." ++ f))) := by
  simp only [_compile_merge] at h
  split at h
  · exact absurd h (by simp)
  · split at h
    · exact absurd h (by simp)
    · rename_i row_values sql_args hgvr
      rw [CompileResult.ok.injEq, _CompiledMerge.mk.injEq] at h
      obtain ⟨hsql, hargs⟩ := h
      subst hargs
      subst hsql
      have hchar : row_values = mo.using_.values.map (fun _ =>
          "(" ++ joinSep ", " ((_model_fields mo.using_.into.model).map (fun _ => "%s")) ++
            ")") := by
        simp only [_get_values_for_rows] at hgvr
        split at hgvr
        · exact absurd hgvr (by simp)
        · rw [Option.some.injEq, Prod.mk.injEq] at hgvr
          exact hgvr.1.symm
      refine ⟨?_, ?_, ?_⟩
      · rw [hchar]
      · rw [← hchar]
        exact hgvr
      · intro fs hlen
        simp only [returningSql, returningFields]
        rw [if_pos hlen]
        rw [show (" RETURNING merge_action()" ++ "," ++ " " : String) =
          " RETURNING merge_action(), " from rfl]

set_option maxRecDepth 8000 in
/-- C2 witness: the amended characterization applied to a concrete compile
with a two-column RETURNING request: the resulting SQL carries the quoted
table name and source column list, the %s placeholder groups, and the raw
target-qualified RETURNING columns. -/
theorem C2_amended_quoting_witness :
    c2SqlRet =
      "MERGE INTO " ++ _quote exOnInsert.using_.into.model.db_table ++
        " target USING (VALUES " ++
        joinSep ", " (exOnInsert.using_.values.map (fun _ =>
          "(" ++
            joinSep ", " ((_model_fields exOnInsert.using_.into.model).map (fun _ => "%s")) ++
            ")")) ++
        ") AS source (" ++
        joinSep ", "
          ((_model_fields exOnInsert.using_.into.model).map (fun f => _quote f.column)) ++
        ")" ++ " " ++ _compile_on exOnInsert ++
        returningSql (RetSpec.explicit ["name", "amount"]) exOnInsert.using_.into.model :=
  (C2_amended_quoting exOnInsert (RetSpec.explicit ["name", "amount"]) c2SqlRet
    ["Alice", "1"] (by decide)).1

end Pgbulk
